import Mathlib

/-!
Verification of the mcp-server dispatch loop, tool catalog and configuration
loading, as a shallow embedding of the Go sources (`server/server.go`,
`config/config.go`, `jira` client constructor, `main.go`).

Modelling conventions:
  * Decoded JSON values (Go `interface{}` after `json.Unmarshal`) are the
    inductive `Json`; JSON numbers (Go `float64`) are modelled as `Int`,
    which is faithful for every claim considered (only the zero-default
    coercion and `int(number)` conversion matter).
  * The three service clients are external collaborators performing network
    calls; a dispatch to one is reified as a `ClientCall` value and the
    network is an explicit environment `env : ClientCall → Except String String`
    (Go's `(string, error)` result).
  * Stdin lines are modelled after `json.Unmarshal`: a line is blank,
    malformed (carrying whatever `id` the partial decode left in the zero
    `MCPRequest`, usually null), or a decoded request.
-/

namespace MCP

/-- Decoded JSON value: the shape Go's `encoding/json` produces for
`interface{}` fields (`nil`, `bool`, `float64`, `string`, `[]interface{}`,
`map[string]interface{}`). Numbers are modelled as `Int`. -/
inductive Json where
  | null
  | bool (b : Bool)
  | num (n : Int)
  | str (s : String)
  | arr (xs : List Json)
  | obj (fields : List (String × Json))

/-- Lookup of a key in a decoded JSON object (Go `m["k"]` on
`map[string]interface{}`, restricted to the keys the dispatcher reads). -/
def Json.lookup : List (String × Json) → String → Option Json
  | [], _ => none
  | (k, v) :: rest, key => if k = key then some v else Json.lookup rest key

/-- Whether a JSON value is a string (Go type assertion `.(string)` succeeds). -/
def Json.isStr : Json → Bool
  | .str _ => true
  | _ => false

/-- Whether a JSON value is a number (Go type assertion `.(float64)` succeeds). -/
def Json.isNum : Json → Bool
  | .num _ => true
  | _ => false

/-- Whether a JSON value is a boolean (Go type assertion `.(bool)` succeeds). -/
def Json.isBool : Json → Bool
  | .bool _ => true
  | _ => false

/-- Whether a JSON value is an array (Go type assertion `.([]interface{})`
succeeds). -/
def Json.isArr : Json → Bool
  | .arr _ => true
  | _ => false

/-- `MCPRequest` of server.go: jsonrpc, id (`interface{}`, null when absent),
method, params (`interface{}`, null when absent). -/
structure MCPRequest where
  jsonrpc : String
  id : Json
  method : String
  params : Json

/-- `MCPError` of server.go: code, message, optional data. -/
structure MCPError where
  code : Int
  message : String
  data : Option Json

/-- `ToolContent` of server.go: a typed text block inside a tool result. -/
structure ToolContent where
  type : String
  text : String

/-- `ToolResult` of server.go: content blocks plus the `isError` flag. -/
structure ToolResult where
  content : List ToolContent
  isError : Bool

/-- `Tool` of server.go: a catalog entry with name, description and
JSON-schema-like input schema. -/
structure Tool where
  name : String
  description : String
  inputSchema : Json

/-- The values the server ever passes to `sendResponse` as `result`:
the initialize metadata map, the tools/list map, or a `ToolResult`. -/
inductive ResultValue where
  | initializeResult (protocolVersion : String) (serverName : String) (serverVersion : String)
  | toolsResult (tools : List Tool)
  | callResult (r : ToolResult)

/-- `MCPResponse` of server.go: `result` and `error` both carry `omitempty`,
so each is an `Option`. -/
structure MCPResponse where
  jsonrpc : String
  id : Json
  result : Option ResultValue
  error : Option MCPError

/-- `sendResponse` of server.go: success envelope, `error` omitted. -/
def sendResponse (id : Json) (result : ResultValue) : MCPResponse :=
  { jsonrpc := "2.0", id := id, result := some result, error := none }

/-- `sendError` of server.go: error envelope, `result` omitted. -/
def sendError (id : Json) (code : Int) (message : String) (data : Option Json) : MCPResponse :=
  { jsonrpc := "2.0", id := id, result := none, error := some ⟨code, message, data⟩ }

/-- Argument extraction `v, _ := args["k"].(string)`: the zero value `""`
when the key is absent or the value is not a string. -/
def getStr (args : List (String × Json)) (k : String) : String :=
  match Json.lookup args k with
  | some (Json.str s) => s
  | _ => ""

/-- Argument extraction `v, _ := args["k"].(float64)` followed by `int(v)`:
zero when the key is absent or the value is not a number. -/
def getNum (args : List (String × Json)) (k : String) : Int :=
  match Json.lookup args k with
  | some (Json.num n) => n
  | _ => 0

/-- Argument extraction `v, _ := args["k"].(bool)`: `false` when the key is
absent or the value is not a boolean. -/
def getBool (args : List (String × Json)) (k : String) : Bool :=
  match Json.lookup args k with
  | some (Json.bool b) => b
  | _ => false

/-- Argument extraction for `github_assign_copilot`:
`assignees, _ := args["k"].([]interface{})` (nil, hence empty, on
absence/mismatch) then element-wise `assignee.(string)` with `""` default. -/
def getStrList (args : List (String × Json)) (k : String) : List String :=
  match Json.lookup args k with
  | some (Json.arr xs) => xs.map (fun j => match j with | Json.str s => s | _ => "")
  | _ => []

/-- A dispatched service-client method call with its typed arguments: the
boundary at which `executeTool` hands control to the GitHub/Jira/Notion
clients (external collaborators performing one upstream HTTP call). -/
inductive ClientCall where
  | githubGetPullRequest (owner repo : String) (number : Int)
  | githubGetPullRequestDiff (owner repo : String) (number : Int)
  | githubCreateIssue (owner repo title body : String)
  | githubCreatePullRequest (owner repo title body head base : String)
  | githubGetIssue (owner repo : String) (number : Int)
  | githubListBranches (owner repo : String)
  | githubListCommits (owner repo : String)
  | githubSearchRepositories (query : String)
  | githubSearchIssues (query : String)
  | githubGetWorkflows (owner repo : String)
  | githubRunWorkflow (owner repo workflowID ref : String)
  | githubAddComment (owner repo : String) (number : Int) (body : String)
  | githubGetComments (owner repo : String) (number : Int)
  | githubAssignCopilot (owner repo : String) (number : Int) (assignees : List String)
  | githubCreateBranch (owner repo branchName sha : String)
  | githubCreateRepository (name description : String) (isPrivate : Bool)
  | githubGetCommit (owner repo sha : String)
  | githubGetReleaseByTag (owner repo tagName : String)
  | githubGetTag (owner repo tagName : String)
  | githubSearchCode (query : String)
  | githubSearchPullRequests (query : String)
  | jiraGetTicketByID (ticketID : String)
  | jiraSearchTickets (jql : String)
  | jiraCreateTicket (projectKey summary description : String)
  | notionSearchPagesByTitle (title : String)
  | notionGetPageByURL (url : String)
  | notionGetDatabase (databaseID : String)
  | notionCreatePage (parentID title content : String)
  | notionCreateDatabase (parentPageID title : String)
  | notionUpdatePage (pageID title content : String)
  | notionUpdateDatabase (databaseID title : String)

/-- The environment interpreting a service-client call: Go's
`(string, error)` result of the upstream HTTP interaction. -/
def ClientEnv := ClientCall → Except String String

/-- `executeTool` of server.go: the enumerated switch from tool name to a
service-client invocation with arguments extracted by zero-defaulting type
assertions; the default branch yields `unknown tool: <name>`. -/
def executeTool (env : ClientEnv) (name : String) (args : List (String × Json)) :
    Except String String :=
  match name with
  | "github_get_pull_request" =>
      env (.githubGetPullRequest (getStr args "owner") (getStr args "repo") (getNum args "number"))
  | "github_get_pull_request_diff" =>
      env (.githubGetPullRequestDiff (getStr args "owner") (getStr args "repo") (getNum args "number"))
  | "github_create_issue" =>
      env (.githubCreateIssue (getStr args "owner") (getStr args "repo") (getStr args "title") (getStr args "body"))
  | "github_create_pull_request" =>
      env (.githubCreatePullRequest (getStr args "owner") (getStr args "repo") (getStr args "title")
        (getStr args "body") (getStr args "head") (getStr args "base"))
  | "github_get_issue" =>
      env (.githubGetIssue (getStr args "owner") (getStr args "repo") (getNum args "number"))
  | "github_list_branches" =>
      env (.githubListBranches (getStr args "owner") (getStr args "repo"))
  | "github_list_commits" =>
      env (.githubListCommits (getStr args "owner") (getStr args "repo"))
  | "github_search_repositories" =>
      env (.githubSearchRepositories (getStr args "query"))
  | "github_search_issues" =>
      env (.githubSearchIssues (getStr args "query"))
  | "github_get_workflows" =>
      env (.githubGetWorkflows (getStr args "owner") (getStr args "repo"))
  | "github_run_workflow" =>
      env (.githubRunWorkflow (getStr args "owner") (getStr args "repo") (getStr args "workflowID") (getStr args "ref"))
  | "github_add_comment" =>
      env (.githubAddComment (getStr args "owner") (getStr args "repo") (getNum args "number") (getStr args "body"))
  | "github_get_comments" =>
      env (.githubGetComments (getStr args "owner") (getStr args "repo") (getNum args "number"))
  | "github_assign_copilot" =>
      env (.githubAssignCopilot (getStr args "owner") (getStr args "repo") (getNum args "number")
        (getStrList args "assignees"))
  | "github_create_branch" =>
      env (.githubCreateBranch (getStr args "owner") (getStr args "repo") (getStr args "branchName") (getStr args "sha"))
  | "github_create_repository" =>
      env (.githubCreateRepository (getStr args "name") (getStr args "description") (getBool args "private"))
  | "github_get_commit" =>
      env (.githubGetCommit (getStr args "owner") (getStr args "repo") (getStr args "sha"))
  | "github_get_release_by_tag" =>
      env (.githubGetReleaseByTag (getStr args "owner") (getStr args "repo") (getStr args "tagName"))
  | "github_get_tag" =>
      env (.githubGetTag (getStr args "owner") (getStr args "repo") (getStr args "tagName"))
  | "github_search_code" =>
      env (.githubSearchCode (getStr args "query"))
  | "github_search_pull_requests" =>
      env (.githubSearchPullRequests (getStr args "query"))
  | "jira_get_ticket" =>
      env (.jiraGetTicketByID (getStr args "ticketID"))
  | "jira_search_tickets" =>
      env (.jiraSearchTickets (getStr args "jql"))
  | "jira_create_ticket" =>
      env (.jiraCreateTicket (getStr args "projectKey") (getStr args "summary") (getStr args "description"))
  | "notion_search_pages" =>
      env (.notionSearchPagesByTitle (getStr args "title"))
  | "notion_get_page" =>
      env (.notionGetPageByURL (getStr args "url"))
  | "notion_get_database" =>
      env (.notionGetDatabase (getStr args "databaseID"))
  | "notion_create_page" =>
      env (.notionCreatePage (getStr args "parentID") (getStr args "title") (getStr args "content"))
  | "notion_create_database" =>
      env (.notionCreateDatabase (getStr args "parentPageID") (getStr args "title"))
  | "notion_update_page" =>
      env (.notionUpdatePage (getStr args "pageID") (getStr args "title") (getStr args "content"))
  | "notion_update_database" =>
      env (.notionUpdateDatabase (getStr args "databaseID") (getStr args "title"))
  | _ => Except.error ("unknown tool: " ++ name)

/-- A string-typed schema property `{"type": "string", "description": d}`. -/
def strProp (d : String) : Json :=
  Json.obj [("type", Json.str "string"), ("description", Json.str d)]

/-- An integer-typed schema property `{"type": "integer", "description": d}`. -/
def intProp (d : String) : Json :=
  Json.obj [("type", Json.str "integer"), ("description", Json.str d)]

/-- A boolean-typed schema property `{"type": "boolean", "description": d}`. -/
def boolProp (d : String) : Json :=
  Json.obj [("type", Json.str "boolean"), ("description", Json.str d)]

/-- An array-of-string schema property. -/
def arrStrProp (d : String) : Json :=
  Json.obj [("type", Json.str "array"),
    ("items", Json.obj [("type", Json.str "string")]), ("description", Json.str d)]

/-- An input schema `{"type": "object", "properties": ..., "required": ...}`. -/
def schema (props : List (String × Json)) (required : List String) : Json :=
  Json.obj [("type", Json.str "object"), ("properties", Json.obj props),
    ("required", Json.arr (required.map Json.str))]

/-- `getAvailableTools` of server.go: the static 31-entry tool catalog. -/
def getAvailableTools : List Tool :=
  [ { name := "github_get_pull_request",
      description := "Get details of a specific pull request",
      inputSchema := schema
        [("owner", strProp "Repository owner"), ("repo", strProp "Repository name"),
         ("number", intProp "Pull request number")] ["owner", "repo", "number"] },
    { name := "github_get_pull_request_diff",
      description := "Get the diff of a specific pull request for analysis",
      inputSchema := schema
        [("owner", strProp "Repository owner"), ("repo", strProp "Repository name"),
         ("number", intProp "Pull request number")] ["owner", "repo", "number"] },
    { name := "github_create_issue",
      description := "Create a new issue in a repository",
      inputSchema := schema
        [("owner", strProp "Repository owner"), ("repo", strProp "Repository name"),
         ("title", strProp "Issue title"), ("body", strProp "Issue body")]
        ["owner", "repo", "title"] },
    { name := "github_create_pull_request",
      description := "Create a new pull request",
      inputSchema := schema
        [("owner", strProp "Repository owner"), ("repo", strProp "Repository name"),
         ("title", strProp "Pull request title"), ("body", strProp "Pull request body"),
         ("head", strProp "Source branch"), ("base", strProp "Target branch")]
        ["owner", "repo", "title", "head", "base"] },
    { name := "github_get_issue",
      description := "Get details of a specific issue",
      inputSchema := schema
        [("owner", strProp "Repository owner"), ("repo", strProp "Repository name"),
         ("number", intProp "Issue number")] ["owner", "repo", "number"] },
    { name := "github_list_branches",
      description := "List all branches in a repository",
      inputSchema := schema
        [("owner", strProp "Repository owner"), ("repo", strProp "Repository name")]
        ["owner", "repo"] },
    { name := "github_list_commits",
      description := "List commits in a repository",
      inputSchema := schema
        [("owner", strProp "Repository owner"), ("repo", strProp "Repository name")]
        ["owner", "repo"] },
    { name := "github_search_repositories",
      description := "Search for repositories",
      inputSchema := schema [("query", strProp "Search query")] ["query"] },
    { name := "github_search_issues",
      description := "Search for issues across repositories",
      inputSchema := schema [("query", strProp "Search query")] ["query"] },
    { name := "github_get_workflows",
      description := "Get workflows for a repository",
      inputSchema := schema
        [("owner", strProp "Repository owner"), ("repo", strProp "Repository name")]
        ["owner", "repo"] },
    { name := "github_run_workflow",
      description := "Trigger a workflow run",
      inputSchema := schema
        [("owner", strProp "Repository owner"), ("repo", strProp "Repository name"),
         ("workflowID", strProp "Workflow ID"), ("ref", strProp "Git reference")]
        ["owner", "repo", "workflowID", "ref"] },
    { name := "github_add_comment",
      description := "Add a comment to an issue or pull request",
      inputSchema := schema
        [("owner", strProp "Repository owner"), ("repo", strProp "Repository name"),
         ("number", intProp "Issue or pull request number"), ("body", strProp "Comment body")]
        ["owner", "repo", "number", "body"] },
    { name := "github_get_comments",
      description := "Get comments from an issue or pull request",
      inputSchema := schema
        [("owner", strProp "Repository owner"), ("repo", strProp "Repository name"),
         ("number", intProp "Issue or pull request number")] ["owner", "repo", "number"] },
    { name := "github_assign_copilot",
      description := "Assign users to an issue or pull request",
      inputSchema := schema
        [("owner", strProp "Repository owner"), ("repo", strProp "Repository name"),
         ("number", intProp "Issue or pull request number"),
         ("assignees", arrStrProp "Array of usernames to assign")]
        ["owner", "repo", "number", "assignees"] },
    { name := "github_create_branch",
      description := "Create a new branch in a repository",
      inputSchema := schema
        [("owner", strProp "Repository owner"), ("repo", strProp "Repository name"),
         ("branchName", strProp "Name for the new branch"),
         ("sha", strProp "SHA of the commit to branch from")]
        ["owner", "repo", "branchName", "sha"] },
    { name := "github_create_repository",
      description := "Create a new repository",
      inputSchema := schema
        [("name", strProp "Repository name"), ("description", strProp "Repository description"),
         ("private", boolProp "Whether the repository should be private")] ["name"] },
    { name := "github_get_commit",
      description := "Get details of a specific commit",
      inputSchema := schema
        [("owner", strProp "Repository owner"), ("repo", strProp "Repository name"),
         ("sha", strProp "Commit SHA")] ["owner", "repo", "sha"] },
    { name := "github_get_release_by_tag",
      description := "Get release information by tag",
      inputSchema := schema
        [("owner", strProp "Repository owner"), ("repo", strProp "Repository name"),
         ("tagName", strProp "Tag name")] ["owner", "repo", "tagName"] },
    { name := "github_get_tag",
      description := "Get tag information",
      inputSchema := schema
        [("owner", strProp "Repository owner"), ("repo", strProp "Repository name"),
         ("tagName", strProp "Tag name")] ["owner", "repo", "tagName"] },
    { name := "github_search_code",
      description := "Search for code in repositories",
      inputSchema := schema [("query", strProp "Search query")] ["query"] },
    { name := "github_search_pull_requests",
      description := "Search for pull requests",
      inputSchema := schema [("query", strProp "Search query")] ["query"] },
    { name := "jira_get_ticket",
      description := "Get details of a Jira ticket",
      inputSchema := schema [("ticketID", strProp "Jira ticket ID")] ["ticketID"] },
    { name := "jira_search_tickets",
      description := "Search for Jira tickets using JQL",
      inputSchema := schema [("jql", strProp "JQL query string")] ["jql"] },
    { name := "jira_create_ticket",
      description := "Create a new Jira ticket",
      inputSchema := schema
        [("projectKey", strProp "Project key"), ("summary", strProp "Ticket summary"),
         ("description", strProp "Ticket description")] ["projectKey", "summary"] },
    { name := "notion_search_pages",
      description := "Search for Notion pages by title",
      inputSchema := schema [("title", strProp "Page title to search for")] ["title"] },
    { name := "notion_get_page",
      description := "Get a Notion page by URL",
      inputSchema := schema [("url", strProp "Page URL")] ["url"] },
    { name := "notion_get_database",
      description := "Get a Notion database by ID",
      inputSchema := schema [("databaseID", strProp "Database ID")] ["databaseID"] },
    { name := "notion_create_page",
      description := "Create a new Notion page",
      inputSchema := schema
        [("parentID", strProp "Parent page/database ID"), ("title", strProp "Page title"),
         ("content", strProp "Page content")] ["parentID", "title"] },
    { name := "notion_create_database",
      description := "Create a new Notion database",
      inputSchema := schema
        [("parentPageID", strProp "Parent page ID"), ("title", strProp "Database title")]
        ["parentPageID", "title"] },
    { name := "notion_update_page",
      description := "Update an existing Notion page",
      inputSchema := schema
        [("pageID", strProp "Page ID to update"), ("title", strProp "New page title"),
         ("content", strProp "New page content")] ["pageID"] },
    { name := "notion_update_database",
      description := "Update an existing Notion database",
      inputSchema := schema
        [("databaseID", strProp "Database ID to update"), ("title", strProp "New database title")]
        ["databaseID", "title"] } ]

/-- `handleInitialize` of server.go: static protocol/capability metadata. -/
def handleInitialize (request : MCPRequest) : MCPResponse :=
  sendResponse request.id
    (ResultValue.initializeResult "2024-11-05" "mcp-integration-server" "1.0.0")

/-- `handleToolsList` of server.go: the full static catalog. -/
def handleToolsList (request : MCPRequest) : MCPResponse :=
  sendResponse request.id (ResultValue.toolsResult getAvailableTools)

/-- `handleToolCall` of server.go: params must be an object with a string
`name`; `arguments` falls back to an empty map; the tool outcome is wrapped
in a content block (error outcomes flagged `isError`, never escalated to a
protocol-level error). -/
def handleToolCall (env : ClientEnv) (request : MCPRequest) : MCPResponse :=
  match request.params with
  | Json.obj params =>
    match Json.lookup params "name" with
    | some (Json.str name) =>
      let arguments : List (String × Json) :=
        match Json.lookup params "arguments" with
        | some (Json.obj args) => args
        | _ => []
      match executeTool env name arguments with
      | Except.error e =>
          sendResponse request.id
            (ResultValue.callResult ⟨[⟨"text", "Error: " ++ e⟩], true⟩)
      | Except.ok result =>
          sendResponse request.id
            (ResultValue.callResult ⟨[⟨"text", result⟩], false⟩)
    | _ => sendError request.id (-32602) "Missing tool name" none
  | _ => sendError request.id (-32602) "Invalid params" none

/-- `handleRequest` of server.go: method routing. -/
def handleRequest (env : ClientEnv) (request : MCPRequest) : MCPResponse :=
  match request.method with
  | "initialize" => handleInitialize request
  | "tools/list" => handleToolsList request
  | "tools/call" => handleToolCall env request
  | _ => sendError request.id (-32601) "Method not found" none

/-- One stdin line as seen after `strings.TrimSpace` and `json.Unmarshal`
in `Start` of server.go: blank (skipped), malformed (unmarshal error; the
`id` is whatever the partial decode left in the zero `MCPRequest`,
`Json.null` unless the line decoded an id before failing), or a decoded
request. -/
inductive Line where
  | blank
  | malformed (id : Json)
  | request (req : MCPRequest)

/-- The responses `Start` emits for one input line: none for a blank line,
one parse error for a malformed line, one dispatched response otherwise. -/
def processLine (env : ClientEnv) : Line → List MCPResponse
  | .blank => []
  | .malformed id => [sendError id (-32700) "Parse error" none]
  | .request req => [handleRequest env req]

/-- The scanner loop of `Start`: processes every line in order until the
input is exhausted. -/
def processLines (env : ClientEnv) (lines : List Line) : List MCPResponse :=
  lines.flatMap (processLine env)

/-- `Config` of config/config.go: the five credential fields. Go zero value
is the empty string for each. -/
structure Config where
  notionToken : String
  githubToken : String
  jiraToken : String
  jiraURL : String
  jiraUsername : String

/-- One YAML document as `yaml.Unmarshal` applies it to an existing
`Config`: a field present in the document overwrites the struct field, an
absent field leaves it unchanged. `none` marks an absent field. -/
structure YamlDoc where
  notionToken : Option String
  githubToken : Option String
  jiraToken : Option String
  jiraURL : Option String
  jiraUsername : Option String

/-- `yaml.Unmarshal(data, &cfg)`: overwrite exactly the fields the document
carries. -/
def applyYaml (cfg : Config) (y : YamlDoc) : Config :=
  { notionToken := y.notionToken.getD cfg.notionToken,
    githubToken := y.githubToken.getD cfg.githubToken,
    jiraToken := y.jiraToken.getD cfg.jiraToken,
    jiraURL := y.jiraURL.getD cfg.jiraURL,
    jiraUsername := y.jiraUsername.getD cfg.jiraUsername }

/-- The process environment as `os.Getenv` sees it: `""` when a variable is
unset. -/
structure EnvVars where
  notionToken : String
  githubToken : String
  jiraToken : String
  jiraURL : String
  jiraUsername : String

/-- `LoadConfig` of config/config.go: start from the zero `Config`, apply
the base file if readable, then `local.yml` if readable, then overwrite each
field from its environment variable when that variable is non-empty.
`none` for a file models an `os.ReadFile` error (missing file), which is
skipped without failing. -/
def LoadConfig (base : Option YamlDoc) (localFile : Option YamlDoc) (env : EnvVars) : Config :=
  let cfg : Config := ⟨"", "", "", "", ""⟩
  let cfg := match base with
    | some y => applyYaml cfg y
    | none => cfg
  let cfg := match localFile with
    | some y => applyYaml cfg y
    | none => cfg
  { notionToken := if env.notionToken ≠ "" then env.notionToken else cfg.notionToken,
    githubToken := if env.githubToken ≠ "" then env.githubToken else cfg.githubToken,
    jiraToken := if env.jiraToken ≠ "" then env.jiraToken else cfg.jiraToken,
    jiraURL := if env.jiraURL ≠ "" then env.jiraURL else cfg.jiraURL,
    jiraUsername := if env.jiraUsername ≠ "" then env.jiraUsername else cfg.jiraUsername }

/-- The layered value of one credential field, stated declaratively: the
environment variable when non-empty, else the override file's value when
the file exists and carries the field, else the base file's value likewise,
else the empty string. -/
def layeredValue (envVal : String) (localVal baseVal : Option String) : String :=
  if envVal ≠ "" then envVal else (localVal.getD (baseVal.getD ""))

/-- The Jira client handle of jira.go (credentials plus a fixed-timeout
HTTP client, the latter irrelevant here). -/
structure JiraClient where
  baseURL : String
  username : String
  token : String

/-- Outcome of `NewJiraClient` in jira.go: a client, a returned error
value, or a runtime panic (the unguarded `jiraURL[len(jiraURL)-1]` index). -/
inductive JiraClientResult where
  | ok (client : JiraClient)
  | err (msg : String)
  | panicked

/-- `NewJiraClient` of jira.go: reject empty username, then empty token;
then evaluate `jiraURL[len(jiraURL)-1] != '/'` — which panics with an
out-of-bounds index when `jiraURL` is empty — appending a trailing slash
when absent. -/
def NewJiraClient (jiraURL username token : String) : JiraClientResult :=
  if username = "" then
    .err "username/email is required for Jira authentication"
  else if token = "" then
    .err "API token is required for Jira authentication"
  else if jiraURL = "" then
    .panicked
  else
    .ok ⟨if jiraURL.endsWith "/" then jiraURL else jiraURL ++ "/", username, token⟩

/-- How the `main` process run ends relative to startup: a `log.Fatalf`
exit (non-zero), a runtime panic (non-zero), or a running server that
processes stdin until it closes. `NewGithubClient` and `NewNotionClient`
never fail, so only the Jira constructor gates startup. -/
inductive StartupOutcome where
  | fatalExit (msg : String)
  | panicked
  | running (jira : JiraClient)

/-- `main` of main.go after `LoadConfig` succeeds: construct the clients;
a Jira constructor error is fatal, the empty-URL index panics, otherwise
the server starts and runs. -/
def startupOutcome (cfg : Config) : StartupOutcome :=
  match NewJiraClient cfg.jiraURL cfg.jiraUsername cfg.jiraToken with
  | .err msg => .fatalExit ("Error creating Jira client: " ++ msg)
  | .panicked => .panicked
  | .ok client => .running client

/-- A concrete environment for witnesses: every upstream call succeeds with
an empty payload. -/
def envOk : ClientEnv := fun _ => Except.ok ""

/-- Whether a JSON value is an object (Go type assertion
`.(map[string]interface{})` succeeds). -/
def Json.isObj : Json → Bool
  | .obj _ => true
  | _ => false

/-- The declared tool names, in catalog order. -/
def toolNames : List String := getAvailableTools.map Tool.name

/-- The id of the request a line originates from: the decoded request's id,
or for a malformed line the id left by the partial decode (null unless the
line decoded an id before failing). Blank lines produce no response. -/
def Line.srcId : Line → Json
  | .blank => Json.null
  | .malformed id => id
  | .request req => req.id

/-- A name outside the catalog falls through `executeTool`'s switch to the
default branch. -/
theorem executeTool_unknown (env : ClientEnv) (name : String)
    (args : List (String × Json)) (h : name ∉ toolNames) :
    executeTool env name args = Except.error ("unknown tool: " ++ name) := by
  unfold executeTool
  split
  all_goals first
    | rfl
    | exact absurd (by decide) h

/-- Every handler copies the request's id into the response. -/
theorem handleRequest_id (env : ClientEnv) (req : MCPRequest) :
    (handleRequest env req).id = req.id := by
  unfold handleRequest handleInitialize handleToolsList handleToolCall
  split <;> try rfl
  split <;> try rfl
  split <;> try rfl
  split <;> try rfl
  all_goals (dsimp only; split <;> rfl)

/-- Every handler answers through `sendResponse` or `sendError`, so its
response carries exactly one of `result` and `error`. -/
theorem handleRequest_exclusive (env : ClientEnv) (req : MCPRequest) :
    ((handleRequest env req).result.isSome = true ∧ (handleRequest env req).error = none) ∨
    ((handleRequest env req).result = none ∧ (handleRequest env req).error.isSome = true) := by
  unfold handleRequest handleInitialize handleToolsList handleToolCall
  split <;> try (left; exact ⟨rfl, rfl⟩)
  all_goals try (right; exact ⟨rfl, rfl⟩)
  split <;> try (right; exact ⟨rfl, rfl⟩)
  split <;> try (right; exact ⟨rfl, rfl⟩)
  all_goals (dsimp only; split <;> (left; exact ⟨rfl, rfl⟩))

/-- C1, counterexample: calling the unknown tool `foo` yields a success
envelope with a single error-flagged content block, but that block's text
is `Error: unknown tool: foo` — the `fmt.Sprintf("Error: %v", err)` wrapper
prepends `Error: ` — not the bare `unknown tool: foo` the claim states. -/
theorem C1_text_counterexample :
    handleToolCall envOk ⟨"2.0", Json.num 1, "tools/call",
        Json.obj [("name", Json.str "foo"), ("arguments", Json.obj [])]⟩ =
      { jsonrpc := "2.0", id := Json.num 1,
        result := some (ResultValue.callResult
          ⟨[⟨"text", "Error: unknown tool: foo"⟩], true⟩),
        error := none }
    ∧ "Error: unknown tool: foo" ≠ "unknown tool: foo" :=
  ⟨rfl, by decide⟩

/-- C1 (amended): for every well-formed `tools/call` request whose params
name a tool outside the catalog, the dispatcher sends a success envelope
(no `error` member) whose result is a single error-flagged content block
with text `Error: unknown tool: <name>`. -/
theorem C1_unknown_tool_flagged (env : ClientEnv) (id : Json) (name : String)
    (args params : List (String × Json))
    (hname : Json.lookup params "name" = some (Json.str name))
    (hargs : Json.lookup params "arguments" = some (Json.obj args))
    (h : name ∉ toolNames) :
    handleToolCall env ⟨"2.0", id, "tools/call", Json.obj params⟩ =
      { jsonrpc := "2.0", id := id,
        result := some (ResultValue.callResult
          ⟨[⟨"text", "Error: unknown tool: " ++ name⟩], true⟩),
        error := none } := by
  unfold handleToolCall
  dsimp only
  rw [hname]
  dsimp only
  rw [hargs]
  dsimp only
  rw [executeTool_unknown env name args h]
  rfl

/-- C1, witness: the amended statement at a concrete unknown tool. -/
theorem C1_unknown_tool_flagged_witness :
    handleToolCall envOk ⟨"2.0", Json.null, "tools/call",
        Json.obj [("name", Json.str "frobnicate"), ("arguments", Json.obj [])]⟩ =
      { jsonrpc := "2.0", id := Json.null,
        result := some (ResultValue.callResult
          ⟨[⟨"text", "Error: unknown tool: frobnicate"⟩], true⟩),
        error := none } :=
  C1_unknown_tool_flagged envOk Json.null "frobnicate" [] _ rfl rfl (by decide)

/-- C2, counterexample: calling the unknown tool `nope` does NOT yield a
protocol-level invalid-params error; the response's `error` member is
absent (the failure is only flagged inside the result payload). -/
theorem C2_unknown_tool_counterexample :
    (handleToolCall envOk ⟨"2.0", Json.num 2, "tools/call",
        Json.obj [("name", Json.str "nope"), ("arguments", Json.obj [])]⟩).error = none :=
  rfl

/-- C2 (amended): a `tools/call` request whose params lack a string `name`
field gets a protocol-level error with code -32602 (`Missing tool name`
when params is an object, `Invalid params` otherwise); an unknown tool
name instead yields a success envelope flagged in the payload (C1). -/
theorem C2_invalid_params (env : ClientEnv) (id : Json) (p : Json)
    (h : ∀ params, p = Json.obj params → ∀ s, Json.lookup params "name" ≠ some (Json.str s)) :
    handleToolCall env ⟨"2.0", id, "tools/call", p⟩ =
      sendError id (-32602) (if p.isObj then "Missing tool name" else "Invalid params") none := by
  cases p with
  | obj params =>
    unfold handleToolCall
    dsimp only [Json.isObj, if_pos]
    cases hl : Json.lookup params "name" with
    | none => rfl
    | some v =>
      cases v with
      | str s => exact absurd hl (h params rfl s)
      | null => rfl
      | bool b => rfl
      | num n => rfl
      | arr xs => rfl
      | obj fields => rfl
  | null => rfl
  | bool b => rfl
  | num n => rfl
  | str s => rfl
  | arr xs => rfl

/-- C2, witness: empty params object gives the -32602 `Missing tool name`
protocol error. -/
theorem C2_invalid_params_witness :
    handleToolCall envOk ⟨"2.0", Json.num 3, "tools/call", Json.obj []⟩ =
      sendError (Json.num 3) (-32602) "Missing tool name" none := by
  have hmain := C2_invalid_params envOk (Json.num 3) (Json.obj [])
    (by intro params hp s; injection hp with h1; subst h1; simp [Json.lookup])
  simpa [Json.isObj] using hmain

/-- C3: the id of every response emitted for an input line equals the id of
that line's originating request — the decoded request's id verbatim
(null included), or for a malformed line the id the partial decode left. -/
theorem C3_id_roundtrip (env : ClientEnv) (line : Line) (resp : MCPResponse)
    (h : resp ∈ processLine env line) :
    resp.id = line.srcId := by
  cases line with
  | blank => simp [processLine] at h
  | malformed id =>
    simp [processLine] at h
    subst h
    rfl
  | request req =>
    simp [processLine] at h
    subst h
    exact handleRequest_id env req

/-- C3, witness: a `tools/list` request with null id is answered with a
null id. -/
theorem C3_id_roundtrip_witness :
    (handleRequest envOk ⟨"2.0", Json.null, "tools/list", Json.null⟩).id = Json.null :=
  C3_id_roundtrip envOk (Line.request ⟨"2.0", Json.null, "tools/list", Json.null⟩) _
    (by simp [processLine])

/-- C4: a malformed line in any position produces exactly one response —
the -32700 parse error — and the lines before and after it are processed
exactly as they would be on their own: the loop continues. -/
theorem C4_parse_error_isolated (env : ClientEnv) (pre post : List Line) (id : Json) :
    processLines env (pre ++ Line.malformed id :: post) =
      processLines env pre ++
        sendError id (-32700) "Parse error" none :: processLines env post := by
  simp [processLines, processLine]

/-- C5: every `tools/list` request — whatever the environment or any prior
traffic, since the catalog is a constant and the server holds no
cross-request state — is answered with the same catalog of exactly 31
tools, whose declared names are pairwise distinct (each appears exactly
once). -/
theorem C5_tools_list_constant (env env2 : ClientEnv) (req req2 : MCPRequest)
    (h : req.method = "tools/list") (h2 : req2.method = "tools/list") :
    handleRequest env req = sendResponse req.id (ResultValue.toolsResult getAvailableTools)
    ∧ (handleRequest env req).result = (handleRequest env2 req2).result
    ∧ getAvailableTools.length = 31
    ∧ (getAvailableTools.map Tool.name).Nodup := by
  refine ⟨?_, ?_, rfl, by decide⟩
  · unfold handleRequest
    rw [h]
    rfl
  · unfold handleRequest
    rw [h, h2]
    rfl

/-- C5, witness: two distinct concrete `tools/list` requests. -/
theorem C5_tools_list_constant_witness :
    handleRequest envOk ⟨"2.0", Json.num 1, "tools/list", Json.null⟩ =
      sendResponse (Json.num 1) (ResultValue.toolsResult getAvailableTools)
    ∧ (handleRequest envOk ⟨"2.0", Json.num 1, "tools/list", Json.null⟩).result =
      (handleRequest envOk ⟨"2.0", Json.num 2, "tools/list", Json.null⟩).result
    ∧ getAvailableTools.length = 31
    ∧ (getAvailableTools.map Tool.name).Nodup :=
  C5_tools_list_constant envOk envOk
    ⟨"2.0", Json.num 1, "tools/list", Json.null⟩
    ⟨"2.0", Json.num 2, "tools/list", Json.null⟩ rfl rfl

/-- C6: calling a known tool never produces a protocol-level error (the
response's `error` member is absent whatever the arguments), and the
dispatch-time extraction functions coerce an absent key, or a key of the
wrong dynamic type, to the language zero value (empty string, zero,
false, empty list). -/
theorem C6_zero_value_coercion (env : ClientEnv) (id : Json) (name : String)
    (args : List (String × Json)) (h : name ∈ toolNames) :
    (handleToolCall env ⟨"2.0", id, "tools/call",
        Json.obj [("name", Json.str name), ("arguments", Json.obj args)]⟩).error = none
    ∧ (∀ k, Json.lookup args k = none →
        getStr args k = "" ∧ getNum args k = 0 ∧ getBool args k = false ∧ getStrList args k = [])
    ∧ (∀ k v, Json.lookup args k = some v →
        (v.isStr = false → getStr args k = "") ∧
        (v.isNum = false → getNum args k = 0) ∧
        (v.isBool = false → getBool args k = false) ∧
        (v.isArr = false → getStrList args k = [])) := by
  refine ⟨?_, ?_, ?_⟩
  · unfold handleToolCall
    dsimp only
    rw [show Json.lookup [("name", Json.str name), ("arguments", Json.obj args)] "name" =
          some (Json.str name) from rfl]
    dsimp only
    rw [show Json.lookup [("name", Json.str name), ("arguments", Json.obj args)] "arguments" =
          some (Json.obj args) from rfl]
    dsimp only
    cases executeTool env name args <;> rfl
  · intro k hk
    refine ⟨?_, ?_, ?_, ?_⟩ <;> simp [getStr, getNum, getBool, getStrList, hk]
  · intro k v hv
    refine ⟨?_, ?_, ?_, ?_⟩ <;> intro hty <;>
      cases v <;>
        simp_all [Json.isStr, Json.isNum, Json.isBool, Json.isArr,
          getStr, getNum, getBool, getStrList]

/-- C6, witness: `jira_get_ticket` with a mistyped `ticketID` (a number)
still dispatches without a protocol-level error, and the coercion
functions return zero values on that argument map. -/
theorem C6_zero_value_coercion_witness :
    (handleToolCall envOk ⟨"2.0", Json.num 7, "tools/call",
        Json.obj [("name", Json.str "jira_get_ticket"),
          ("arguments", Json.obj [("ticketID", Json.num 5)])]⟩).error = none
    ∧ (∀ k, Json.lookup [("ticketID", Json.num 5)] k = none →
        getStr [("ticketID", Json.num 5)] k = "" ∧ getNum [("ticketID", Json.num 5)] k = 0 ∧
        getBool [("ticketID", Json.num 5)] k = false ∧ getStrList [("ticketID", Json.num 5)] k = [])
    ∧ (∀ k v, Json.lookup [("ticketID", Json.num 5)] k = some v →
        (v.isStr = false → getStr [("ticketID", Json.num 5)] k = "") ∧
        (v.isNum = false → getNum [("ticketID", Json.num 5)] k = 0) ∧
        (v.isBool = false → getBool [("ticketID", Json.num 5)] k = false) ∧
        (v.isArr = false → getStrList [("ticketID", Json.num 5)] k = [])) :=
  C6_zero_value_coercion envOk (Json.num 7) "jira_get_ticket"
    [("ticketID", Json.num 5)] (by decide)

/-- C7: every response the loop emits carries exactly one of the `result`
member and the `error` member — never both, never neither. -/
theorem C7_result_error_exclusive (env : ClientEnv) (line : Line) (resp : MCPResponse)
    (h : resp ∈ processLine env line) :
    (resp.result.isSome = true ∧ resp.error = none) ∨
    (resp.result = none ∧ resp.error.isSome = true) := by
  cases line with
  | blank => simp [processLine] at h
  | malformed id =>
    simp [processLine] at h
    subst h
    right
    exact ⟨rfl, rfl⟩
  | request req =>
    simp [processLine] at h
    subst h
    exact handleRequest_exclusive env req

/-- C7, witness: the exclusivity at a concrete dispatched response. -/
theorem C7_result_error_exclusive_witness :
    ((handleRequest envOk ⟨"2.0", Json.num 4, "initialize", Json.null⟩).result.isSome = true ∧
      (handleRequest envOk ⟨"2.0", Json.num 4, "initialize", Json.null⟩).error = none) ∨
    ((handleRequest envOk ⟨"2.0", Json.num 4, "initialize", Json.null⟩).result = none ∧
      (handleRequest envOk ⟨"2.0", Json.num 4, "initialize", Json.null⟩).error.isSome = true) :=
  C7_result_error_exclusive envOk
    (Line.request ⟨"2.0", Json.num 4, "initialize", Json.null⟩) _ (by simp [processLine])

/-- C8: each of the five credential fields follows the layered precedence —
a non-empty environment variable wins over `local.yml`, which wins over
`config.yml` — and a field absent at every layer (environment unset, both
files missing or silent) loads as the empty string, with `LoadConfig`
returning a configuration rather than an error. -/
theorem C8_layered_precedence (base localFile : Option YamlDoc) (env : EnvVars) :
    ((LoadConfig base localFile env).notionToken =
      layeredValue env.notionToken (localFile.bind YamlDoc.notionToken) (base.bind YamlDoc.notionToken)
    ∧ (LoadConfig base localFile env).githubToken =
      layeredValue env.githubToken (localFile.bind YamlDoc.githubToken) (base.bind YamlDoc.githubToken)
    ∧ (LoadConfig base localFile env).jiraToken =
      layeredValue env.jiraToken (localFile.bind YamlDoc.jiraToken) (base.bind YamlDoc.jiraToken)
    ∧ (LoadConfig base localFile env).jiraURL =
      layeredValue env.jiraURL (localFile.bind YamlDoc.jiraURL) (base.bind YamlDoc.jiraURL)
    ∧ (LoadConfig base localFile env).jiraUsername =
      layeredValue env.jiraUsername (localFile.bind YamlDoc.jiraUsername) (base.bind YamlDoc.jiraUsername))
    ∧ LoadConfig none none ⟨"", "", "", "", ""⟩ = ⟨"", "", "", "", ""⟩ := by
  constructor
  · cases base <;> cases localFile <;>
      exact ⟨rfl, rfl, rfl, rfl, rfl⟩
  · rfl

/-- C9: startup runs the server (until stdin closes) exactly when the
three required Jira credentials are all non-empty; when any of them is
missing the process ends with a non-zero exit — a `log.Fatalf` for a
missing username or token, a runtime panic for an empty base URL. The
GitHub and Notion tokens are never checked and cannot stop startup. -/
theorem C9_startup_gate (cfg : Config) :
    ((∃ c, startupOutcome cfg = StartupOutcome.running c) ↔
      (cfg.jiraUsername ≠ "" ∧ cfg.jiraToken ≠ "" ∧ cfg.jiraURL ≠ ""))
    ∧ ((cfg.jiraUsername = "" ∨ cfg.jiraToken = "" ∨ cfg.jiraURL = "") →
        (∃ m, startupOutcome cfg = StartupOutcome.fatalExit m) ∨
          startupOutcome cfg = StartupOutcome.panicked) := by
  by_cases hu : cfg.jiraUsername = "" <;>
    by_cases ht : cfg.jiraToken = "" <;>
      by_cases hw : cfg.jiraURL = "" <;>
        simp [startupOutcome, NewJiraClient, hu, ht, hw]

/-- C9, witness: a configuration with all three Jira credentials reaches
the running server; one with none of them does not (here, fatal exit). -/
theorem C9_startup_gate_witness :
    (∃ c, startupOutcome ⟨"", "", "tok", "https://jira.example.com/", "user"⟩ =
      StartupOutcome.running c)
    ∧ ((∃ m, startupOutcome ⟨"", "", "", "", ""⟩ = StartupOutcome.fatalExit m) ∨
        startupOutcome ⟨"", "", "", "", ""⟩ = StartupOutcome.panicked) :=
  ⟨(C9_startup_gate ⟨"", "", "tok", "https://jira.example.com/", "user"⟩).1.mpr
      ⟨by decide, by decide, by decide⟩,
   (C9_startup_gate ⟨"", "", "", "", ""⟩).2 (Or.inl rfl)⟩

/-- C10: with a non-empty username and token, an empty Jira base URL passes
both guard checks and reaches the unguarded `jiraURL[len(jiraURL)-1]`
index, an out-of-bounds access on the empty string — so `NewJiraClient`
panics instead of returning an error value, and startup panics. -/
theorem C10_empty_url_panic (cfg : Config) (hurl : cfg.jiraURL = "")
    (hu : cfg.jiraUsername ≠ "") (ht : cfg.jiraToken ≠ "") :
    NewJiraClient cfg.jiraURL cfg.jiraUsername cfg.jiraToken = JiraClientResult.panicked
    ∧ startupOutcome cfg = StartupOutcome.panicked := by
  have h1 : NewJiraClient cfg.jiraURL cfg.jiraUsername cfg.jiraToken =
      JiraClientResult.panicked := by
    unfold NewJiraClient
    rw [if_neg hu, if_neg ht, if_pos hurl]
  exact ⟨h1, by unfold startupOutcome; rw [h1]⟩

/-- C10, witness: the panic at a concrete empty-URL configuration. -/
theorem C10_empty_url_panic_witness :
    NewJiraClient "" "user@example.com" "token123" = JiraClientResult.panicked
    ∧ startupOutcome ⟨"", "", "token123", "", "user@example.com"⟩ = StartupOutcome.panicked :=
  C10_empty_url_panic ⟨"", "", "token123", "", "user@example.com"⟩ rfl
    (by decide) (by decide)

end MCP
